import Mathlib

/-
Shallow embedding of the three agent modules of the repository
(`shipping_agent/agent.py`, `image_generation_agent/agent.py`,
`currency_converter_agent/agent.py`).

The gated tool functions are pure except for the single side effect of
calling `tool_context.request_confirmation(hint, payload)`; we embed each
tool as a function returning the result dict together with an
`Option ConfirmationRequest` recording whether (and with which arguments)
`request_confirmation` was invoked.  Python dicts with a fixed key set per
branch are embedded as structures whose optional fields model keys that are
absent from the dict on some branches.  Python float literals are embedded
as the exact rational numbers their decimal notation denotes; the code only
stores and returns them, it never computes with them.  Python `str.lower()`
is embedded as ASCII lowercasing (`pyLower`), which agrees with Python on
every string appearing in the lookup tables.
-/

/-- A Python value as it appears in a `request_confirmation` payload:
the payloads in the source hold ints and strings. -/
inductive PyVal where
  | int (n : Int)
  | str (s : String)
  deriving DecidableEq

/-- The ADK `ToolConfirmation` object attached to a resumed tool call:
the tools only read its `confirmed` flag. -/
structure ToolConfirmation where
  confirmed : Bool
  deriving DecidableEq

/-- The slice of the ADK `ToolContext` that the gated tools read:
`tool_confirmation` is `None` on a first attempt and carries the approver
decision on a resumed attempt. -/
structure ToolContext where
  tool_confirmation : Option ToolConfirmation
  deriving DecidableEq

/-- One `tool_context.request_confirmation(hint=..., payload=...)` call,
recorded as an effect value returned alongside the result dict. -/
structure ConfirmationRequest where
  hint : String
  payload : List (String × PyVal)
  deriving DecidableEq

/-- The dict returned by `place_shipping_order`.  `order_id`,
`num_containers` and `destination` are keys only present in the
approved-branch dicts, hence optional here. -/
structure ShippingResult where
  status : String
  order_id : Option String
  num_containers : Option Int
  destination : Option String
  message : String
  deriving DecidableEq

/-- `LARGE_ORDER_THRESHOLD = 5` from `shipping_agent/agent.py`. -/
def LARGE_ORDER_THRESHOLD : Int := 5

/-- `place_shipping_order(num_containers, destination, tool_context)` from
`shipping_agent/agent.py`, returning the result dict and the recorded
`request_confirmation` effect (if any). -/
def place_shipping_order (num_containers : Int) (destination : String)
    (tool_context : ToolContext) : ShippingResult × Option ConfirmationRequest :=
  if num_containers ≤ LARGE_ORDER_THRESHOLD then
    (⟨"approved",
      some ("ORD-" ++ toString num_containers ++ "-AUTO"),
      some num_containers,
      some destination,
      "Order auto-approved: " ++ toString num_containers ++ " containers to " ++ destination⟩,
     none)
  else
    match tool_context.tool_confirmation with
    | none =>
      (⟨"pending", none, none, none,
        "Order for " ++ toString num_containers ++ " containers requires approval"⟩,
       some ⟨"⚠️ Large order: " ++ toString num_containers ++ " containers to "
              ++ destination ++ ". Approve?",
             [("num_containers", PyVal.int num_containers),
              ("destination", PyVal.str destination)]⟩)
    | some tc =>
      if tc.confirmed then
        (⟨"approved",
          some ("ORD-" ++ toString num_containers ++ "-HUMAN"),
          some num_containers,
          some destination,
          "Order approved: " ++ toString num_containers ++ " containers to " ++ destination⟩,
         none)
      else
        (⟨"rejected", none, none, none,
          "Order rejected: " ++ toString num_containers ++ " containers to " ++ destination⟩,
         none)

/-- The dict returned by `request_image_generation`: every branch returns
exactly the keys `status` and `message`. -/
structure ImageResult where
  status : String
  message : String
  deriving DecidableEq

/-- `BULK_THRESHOLD = 1` from `image_generation_agent/agent.py`. -/
def BULK_THRESHOLD : Int := 1

/-- `request_image_generation(prompt, num_images, tool_context)` from
`image_generation_agent/agent.py`, returning the result dict and the
recorded `request_confirmation` effect (if any). -/
def request_image_generation (prompt : String) (num_images : Int)
    (tool_context : ToolContext) : ImageResult × Option ConfirmationRequest :=
  if num_images ≤ BULK_THRESHOLD then
    (⟨"approved",
      "✅ Auto-approved: " ++ toString num_images ++ " image(s) for \x27" ++ prompt ++ "\x27."⟩,
     none)
  else
    match tool_context.tool_confirmation with
    | none =>
      (⟨"pending",
        "⏸️ Awaiting approval for " ++ toString num_images ++ " image(s)."⟩,
       some ⟨"⚠️ Bulk request for " ++ toString num_images
              ++ " images. Approve generation for \x27" ++ prompt ++ "\x27?",
             [("prompt", PyVal.str prompt), ("num_images", PyVal.int num_images)]⟩)
    | some tc =>
      if tc.confirmed then
        (⟨"approved",
          "✅ Approved bulk generation: " ++ toString num_images
            ++ " image(s) for \x27" ++ prompt ++ "\x27."⟩,
         none)
      else
        (⟨"rejected", "❌ Rejected bulk generation for \x27" ++ prompt ++ "\x27."⟩,
         none)

/-- ASCII lowercasing of a string, character by character: the embedding of
Python `str.lower()`, with which it agrees on every ASCII string (in
particular on every key of the lookup tables below). -/
def pyLower (s : String) : String := String.mk (s.data.map Char.toLower)

/-- The dict returned by `get_fee_for_payment_method`: `fee_percentage` is a
key only of the success dict, `error_message` only of the error dict. -/
structure FeeResult where
  status : String
  fee_percentage : Option ℚ
  error_message : Option String
  deriving DecidableEq

/-- `fee_database` from `currency_converter_agent/agent.py`. -/
def fee_database : List (String × ℚ) :=
  [("platinum credit card", 0.02),
   ("gold debit card", 0.035),
   ("bank transfer", 0.01)]

/-- `get_fee_for_payment_method(method)` from
`currency_converter_agent/agent.py`. -/
def get_fee_for_payment_method (method : String) : FeeResult :=
  match fee_database.lookup (pyLower method) with
  | some fee => ⟨"success", some fee, none⟩
  | none => ⟨"error", none,
             some ("Payment method \x27" ++ method ++ "\x27 not found")⟩

/-- The dict returned by `get_exchange_rate`: `rate` is a key only of the
success dict, `error_message` only of the error dict. -/
structure RateResult where
  status : String
  rate : Option ℚ
  error_message : Option String
  deriving DecidableEq

/-- `rate_database` from `currency_converter_agent/agent.py`. -/
def rate_database : List (String × List (String × ℚ)) :=
  [("usd", [("eur", 0.93), ("jpy", 157.5), ("inr", 83.58)])]

/-- `get_exchange_rate(base_currency, target_currency)` from
`currency_converter_agent/agent.py`; `.get(..., {}).get(...)` becomes a
lookup with `[]` as the default inner table. -/
def get_exchange_rate (base_currency target_currency : String) : RateResult :=
  match ((rate_database.lookup (pyLower base_currency)).getD []).lookup
      (pyLower target_currency) with
  | some rate => ⟨"success", some rate, none⟩
  | none => ⟨"error", none,
             some ("Unsupported currency pair: " ++ base_currency ++ "/" ++ target_currency)⟩

/-- Modelled from the spec: the Pending Invocation Record the Session Store
holds for a suspended `place_shipping_order` call — the original arguments
plus the `hint`/`payload` surfaced to the approver.  The store itself lives
in the `google.adk` runtime, which is not part of this repository's sources. -/
structure PendingShippingRecord where
  num_containers : Int
  destination : String
  hint : String
  payload : List (String × PyVal)
  deriving DecidableEq

/-- Modelled from the spec: the outcome of routing a resumption decision for
one session — either the tool result of the replayed call, or the
`NoPendingInvocationError` the runtime signals when no pending record
exists.  The error type lives in the `google.adk` runtime, not in `src/`. -/
inductive ResumeOutcome where
  | result (r : ShippingResult)
  | noPendingInvocationError
  deriving DecidableEq

/-- Modelled from the spec: the Orchestrator resumption path for the shipping
tool.  With a pending record it replays `place_shipping_order` on the stored
arguments with the decision attached and clears the record; with no pending
record it signals `NoPendingInvocationError`.  This routing is performed by
the `google.adk` runtime, which is not part of this repository's sources. -/
def resume_shipping_session (pending : Option PendingShippingRecord)
    (confirmed : Bool) : ResumeOutcome × Option PendingShippingRecord :=
  match pending with
  | none => (ResumeOutcome.noPendingInvocationError, none)
  | some rec =>
    (ResumeOutcome.result
      (place_shipping_order rec.num_containers rec.destination ⟨some ⟨confirmed⟩⟩).1,
     none)

/-- Modelled from the spec: a first-attempt `place_shipping_order` call routed
through the runtime, which writes a pending record into the Session Store
exactly when the tool invoked `request_confirmation`.  The store lives in the
`google.adk` runtime, not in this repository's sources. -/
def run_shipping_first_attempt (store : Option PendingShippingRecord)
    (num_containers : Int) (destination : String) :
    ShippingResult × Option PendingShippingRecord :=
  match place_shipping_order num_containers destination ⟨none⟩ with
  | (r, none) => (r, store)
  | (r, some req) => (r, some ⟨num_containers, destination, req.hint, req.payload⟩)

/-- Modelled from the spec: the Pending Invocation Record for a suspended
`request_image_generation` call.  The Session Store lives in the
`google.adk` runtime, not in this repository's sources. -/
structure PendingImageRecord where
  prompt : String
  num_images : Int
  hint : String
  payload : List (String × PyVal)
  deriving DecidableEq

/-- Modelled from the spec: a first-attempt `request_image_generation` call
routed through the runtime, writing a pending record exactly when the tool
invoked `request_confirmation`.  The store lives in the `google.adk`
runtime, not in this repository's sources. -/
def run_image_first_attempt (store : Option PendingImageRecord)
    (prompt : String) (num_images : Int) :
    ImageResult × Option PendingImageRecord :=
  match request_image_generation prompt num_images ⟨none⟩ with
  | (r, none) => (r, store)
  | (r, some req) => (r, some ⟨prompt, num_images, req.hint, req.payload⟩)

/-! Helper lemmas. -/

theorem char_toNat_ofNat_valid (n : Nat) (h : n.isValidChar) :
    (Char.ofNat n).toNat = n := by
  simp [Char.ofNat, h, Char.ofNatAux, Char.toNat, UInt32.toNat]

theorem char_toLower_idem (c : Char) :
    Char.toLower (Char.toLower c) = Char.toLower c := by
  unfold Char.toLower
  by_cases h : c.toNat ≥ 65 ∧ c.toNat ≤ 90
  · rw [if_pos h]
    have h1 : (Char.ofNat (c.toNat + 32)).toNat = c.toNat + 32 :=
      char_toNat_ofNat_valid _ (Or.inl (by omega))
    rw [if_neg (by omega)]
  · rw [if_neg h, if_neg h]

theorem pyLower_idem (s : String) : pyLower (pyLower s) = pyLower s := by
  simp [pyLower, List.map_map, Function.comp_def, char_toLower_idem]

theorem append_human_ne_append_auto (s : String) :
    s ++ "-HUMAN" ≠ s ++ "-AUTO" := by
  intro h
  have h2 := congrArg String.length h
  rw [String.length_append, String.length_append] at h2
  have e1 : ("-HUMAN" : String).length = 6 := rfl
  have e2 : ("-AUTO" : String).length = 5 := rfl
  rw [e1, e2] at h2
  omega

/-- C1: On a first attempt (no confirmation decision attached), each tool
returns status "approved" when its size attribute is at most the tool's
threshold (5 for shipping containers, 1 for images) and status "pending"
when it is strictly greater. -/
theorem first_attempt_threshold_policy (n : Int) (dest prompt : String) :
    (n ≤ LARGE_ORDER_THRESHOLD →
      (place_shipping_order n dest ⟨none⟩).1.status = "approved") ∧
    (LARGE_ORDER_THRESHOLD < n →
      (place_shipping_order n dest ⟨none⟩).1.status = "pending") ∧
    (n ≤ BULK_THRESHOLD →
      (request_image_generation prompt n ⟨none⟩).1.status = "approved") ∧
    (BULK_THRESHOLD < n →
      (request_image_generation prompt n ⟨none⟩).1.status = "pending") := by
  refine ⟨fun h => ?_, fun h => ?_, fun h => ?_, fun h => ?_⟩
  · simp [place_shipping_order, h]
  · simp [place_shipping_order, not_le.mpr h]
  · simp [request_image_generation, h]
  · simp [request_image_generation, not_le.mpr h]

theorem first_attempt_threshold_policy_witness :
    (place_shipping_order 3 "Rotterdam" ⟨none⟩).1.status = "approved" ∧
    (place_shipping_order 10 "Rotterdam" ⟨none⟩).1.status = "pending" ∧
    (request_image_generation "a cat" 1 ⟨none⟩).1.status = "approved" ∧
    (request_image_generation "a cat" 4 ⟨none⟩).1.status = "pending" :=
  ⟨(first_attempt_threshold_policy 3 "Rotterdam" "a cat").1 (by decide),
   (first_attempt_threshold_policy 10 "Rotterdam" "a cat").2.1 (by decide),
   (first_attempt_threshold_policy 1 "Rotterdam" "a cat").2.2.1 (by decide),
   (first_attempt_threshold_policy 4 "Rotterdam" "a cat").2.2.2 (by decide)⟩

/-- C2: On a resumed attempt (a confirmation decision attached) whose size
attribute exceeds the threshold, each tool returns status "approved" when
the decision's `confirmed` flag is true and status "rejected" when it is
false. -/
theorem resumed_decision_determines_status (n : Int) (dest prompt : String) :
    (LARGE_ORDER_THRESHOLD < n →
      (place_shipping_order n dest ⟨some ⟨true⟩⟩).1.status = "approved" ∧
      (place_shipping_order n dest ⟨some ⟨false⟩⟩).1.status = "rejected") ∧
    (BULK_THRESHOLD < n →
      (request_image_generation prompt n ⟨some ⟨true⟩⟩).1.status = "approved" ∧
      (request_image_generation prompt n ⟨some ⟨false⟩⟩).1.status = "rejected") := by
  refine ⟨fun h => ⟨?_, ?_⟩, fun h => ⟨?_, ?_⟩⟩ <;>
    simp [place_shipping_order, request_image_generation, not_le.mpr h]

theorem resumed_decision_determines_status_witness :
    (place_shipping_order 10 "Rotterdam" ⟨some ⟨true⟩⟩).1.status = "approved" ∧
    (place_shipping_order 10 "Rotterdam" ⟨some ⟨false⟩⟩).1.status = "rejected" ∧
    (request_image_generation "a cat" 4 ⟨some ⟨true⟩⟩).1.status = "approved" ∧
    (request_image_generation "a cat" 4 ⟨some ⟨false⟩⟩).1.status = "rejected" :=
  ⟨((resumed_decision_determines_status 10 "Rotterdam" "a cat").1 (by decide)).1,
   ((resumed_decision_determines_status 10 "Rotterdam" "a cat").1 (by decide)).2,
   ((resumed_decision_determines_status 4 "Rotterdam" "a cat").2 (by decide)).1,
   ((resumed_decision_determines_status 4 "Rotterdam" "a cat").2 (by decide)).2⟩

/-- C3 counterexample: the claim says a resumed call returns "rejected"
exactly when `confirmed` is false, for every quantity.  But both tools
re-evaluate the threshold on every attempt: a resumed call with a size
attribute at or below the threshold takes the auto-approve branch and
returns "approved" even though `confirmed` is false. -/
theorem threshold_recheck_on_resume_counterexample :
    (place_shipping_order 3 "Rotterdam" ⟨some ⟨false⟩⟩).1.status = "approved" ∧
    (place_shipping_order 3 "Rotterdam" ⟨some ⟨false⟩⟩).1.status ≠ "rejected" ∧
    (request_image_generation "a cat" 1 ⟨some ⟨false⟩⟩).1.status = "approved" :=
  ⟨rfl, by decide, rfl⟩

/-- C3 (amended): the threshold check is re-evaluated on every attempt —
a resumed call with a size attribute at or below the threshold auto-approves
regardless of the attached decision; for every size attribute strictly above
the threshold, a resumed call returns "approved" exactly when `confirmed` is
true and "rejected" exactly when `confirmed` is false. -/
theorem resumed_outcome_characterization (n : Int) (dest prompt : String) (c : Bool) :
    (n ≤ LARGE_ORDER_THRESHOLD →
      (place_shipping_order n dest ⟨some ⟨c⟩⟩).1.status = "approved") ∧
    (LARGE_ORDER_THRESHOLD < n →
      ((place_shipping_order n dest ⟨some ⟨c⟩⟩).1.status = "approved" ↔ c = true) ∧
      ((place_shipping_order n dest ⟨some ⟨c⟩⟩).1.status = "rejected" ↔ c = false)) ∧
    (n ≤ BULK_THRESHOLD →
      (request_image_generation prompt n ⟨some ⟨c⟩⟩).1.status = "approved") ∧
    (BULK_THRESHOLD < n →
      ((request_image_generation prompt n ⟨some ⟨c⟩⟩).1.status = "approved" ↔ c = true) ∧
      ((request_image_generation prompt n ⟨some ⟨c⟩⟩).1.status = "rejected" ↔ c = false)) := by
  refine ⟨fun h => ?_, fun h => ?_, fun h => ?_, fun h => ?_⟩ <;>
    cases c <;>
    simp_all [place_shipping_order, request_image_generation, not_le.mpr]

theorem resumed_outcome_characterization_witness :
    (place_shipping_order 3 "Rotterdam" ⟨some ⟨false⟩⟩).1.status = "approved" ∧
    ((place_shipping_order 10 "Rotterdam" ⟨some ⟨true⟩⟩).1.status = "approved" ↔ true = true) ∧
    ((place_shipping_order 10 "Rotterdam" ⟨some ⟨false⟩⟩).1.status = "rejected" ↔ false = false) ∧
    (request_image_generation "a cat" 1 ⟨some ⟨false⟩⟩).1.status = "approved" ∧
    ((request_image_generation "a cat" 4 ⟨some ⟨true⟩⟩).1.status = "approved" ↔ true = true) :=
  ⟨(resumed_outcome_characterization 3 "Rotterdam" "a cat" false).1 (by decide),
   ((resumed_outcome_characterization 10 "Rotterdam" "a cat" true).2.1 (by decide)).1,
   ((resumed_outcome_characterization 10 "Rotterdam" "a cat" false).2.1 (by decide)).2,
   (resumed_outcome_characterization 1 "Rotterdam" "a cat" false).2.2.1 (by decide),
   ((resumed_outcome_characterization 4 "Rotterdam" "a cat" true).2.2.2 (by decide)).1⟩

/-- C4: a resumption decision arriving for a session with no pending
invocation record signals `NoPendingInvocationError` and never yields a
tool result (in particular, never an "approved" or "rejected" one). -/
theorem resume_without_pending_record_errors (c : Bool) :
    resume_shipping_session none c = (ResumeOutcome.noPendingInvocationError, none) ∧
    ∀ r : ShippingResult, (resume_shipping_session none c).1 ≠ ResumeOutcome.result r := by
  refine ⟨rfl, fun r h => ?_⟩
  simp [resume_shipping_session] at h

theorem resume_without_pending_record_errors_witness :
    resume_shipping_session none true = (ResumeOutcome.noPendingInvocationError, none) ∧
    (resume_shipping_session none false).1 ≠
      ResumeOutcome.result ⟨"approved", none, none, none, ""⟩ :=
  ⟨(resume_without_pending_record_errors true).1,
   (resume_without_pending_record_errors false).2 ⟨"approved", none, none, none, ""⟩⟩

/-- C5: with threshold 5, a first-attempt order for 10 containers is
"pending"; resuming it with `confirmed = true` is "approved" with order id
`ORD-10-HUMAN`; and for every quantity above the threshold the
human-approved order id `ORD-<n>-HUMAN` differs from the auto-approved
pattern `ORD-<n>-AUTO`. -/
theorem scenario_b_human_order_id (dest : String) (n : Int) :
    (place_shipping_order 10 dest ⟨none⟩).1.status = "pending" ∧
    (place_shipping_order 10 dest ⟨some ⟨true⟩⟩).1.status = "approved" ∧
    (place_shipping_order 10 dest ⟨some ⟨true⟩⟩).1.order_id = some "ORD-10-HUMAN" ∧
    (LARGE_ORDER_THRESHOLD < n →
      (place_shipping_order n dest ⟨some ⟨true⟩⟩).1.order_id =
        some ("ORD-" ++ toString n ++ "-HUMAN") ∧
      ("ORD-" ++ toString n ++ "-HUMAN" : String) ≠ "ORD-" ++ toString n ++ "-AUTO") := by
  refine ⟨rfl, rfl, rfl, fun h => ⟨?_, append_human_ne_append_auto _⟩⟩
  simp [place_shipping_order, not_le.mpr h]

theorem scenario_b_human_order_id_witness :
    (place_shipping_order 10 "Rotterdam" ⟨none⟩).1.status = "pending" ∧
    (place_shipping_order 10 "Rotterdam" ⟨some ⟨true⟩⟩).1.order_id =
      some ("ORD-" ++ toString (10 : Int) ++ "-HUMAN") ∧
    ("ORD-" ++ toString (10 : Int) ++ "-HUMAN" : String) ≠
      "ORD-" ++ toString (10 : Int) ++ "-AUTO" :=
  ⟨(scenario_b_human_order_id "Rotterdam" 10).1,
   ((scenario_b_human_order_id "Rotterdam" 10).2.2.2 (by decide)).1,
   ((scenario_b_human_order_id "Rotterdam" 10).2.2.2 (by decide)).2⟩

/-- C6: every "pending" result populates no domain-specific fields: the
pending shipping dict carries no `order_id`, `num_containers` or
`destination` key, and every image dict consists of exactly a `status` and
a `message` key. -/
theorem pending_result_no_domain_fields (n : Int) (dest prompt : String)
    (ctx : ToolContext) :
    ((place_shipping_order n dest ctx).1.status = "pending" →
      (place_shipping_order n dest ctx).1.order_id = none ∧
      (place_shipping_order n dest ctx).1.num_containers = none ∧
      (place_shipping_order n dest ctx).1.destination = none) ∧
    (request_image_generation prompt n ctx).1 =
      ImageResult.mk (request_image_generation prompt n ctx).1.status
        (request_image_generation prompt n ctx).1.message := by
  refine ⟨fun h => ?_, rfl⟩
  obtain ⟨_ | ⟨⟨b⟩⟩⟩ := ctx
  · by_cases h5 : n ≤ LARGE_ORDER_THRESHOLD
    · simp [place_shipping_order, h5] at h
    · simp [place_shipping_order, h5]
  · by_cases h5 : n ≤ LARGE_ORDER_THRESHOLD
    · simp [place_shipping_order, h5] at h
    · cases b
      · simp [place_shipping_order, h5] at h
      · simp [place_shipping_order, h5] at h

theorem pending_result_no_domain_fields_witness :
    (place_shipping_order 10 "Rotterdam" ⟨none⟩).1.order_id = none ∧
    (place_shipping_order 10 "Rotterdam" ⟨none⟩).1.num_containers = none ∧
    (place_shipping_order 10 "Rotterdam" ⟨none⟩).1.destination = none :=
  (pending_result_no_domain_fields 10 "Rotterdam" "a cat" ⟨none⟩).1 rfl

/-- C7: when the size attribute is at most the threshold, each tool returns
"approved" without invoking `request_confirmation` (the recorded effect is
`none`, for every context), so a first attempt leaves the Session Store
unchanged and creates no pending record. -/
theorem auto_approve_skips_confirmation (n : Int) (dest prompt : String)
    (ctx : ToolContext) :
    (n ≤ LARGE_ORDER_THRESHOLD →
      (place_shipping_order n dest ctx).1.status = "approved" ∧
      (place_shipping_order n dest ctx).2 = none ∧
      ∀ store, (run_shipping_first_attempt store n dest).2 = store) ∧
    (n ≤ BULK_THRESHOLD →
      (request_image_generation prompt n ctx).1.status = "approved" ∧
      (request_image_generation prompt n ctx).2 = none ∧
      ∀ store, (run_image_first_attempt store prompt n).2 = store) := by
  constructor
  · intro h
    refine ⟨?_, ?_, fun store => ?_⟩ <;>
      simp [place_shipping_order, run_shipping_first_attempt, h]
  · intro h
    refine ⟨?_, ?_, fun store => ?_⟩ <;>
      simp [request_image_generation, run_image_first_attempt, h]

theorem auto_approve_skips_confirmation_witness :
    (place_shipping_order 3 "Rotterdam" ⟨some ⟨false⟩⟩).1.status = "approved" ∧
    (place_shipping_order 3 "Rotterdam" ⟨some ⟨false⟩⟩).2 = none ∧
    (run_shipping_first_attempt none 3 "Rotterdam").2 = none ∧
    (request_image_generation "a cat" 1 ⟨none⟩).2 = none ∧
    (run_image_first_attempt none "a cat" 1).2 = none :=
  ⟨((auto_approve_skips_confirmation 3 "Rotterdam" "a cat" ⟨some ⟨false⟩⟩).1 (by decide)).1,
   ((auto_approve_skips_confirmation 3 "Rotterdam" "a cat" ⟨some ⟨false⟩⟩).1 (by decide)).2.1,
   ((auto_approve_skips_confirmation 3 "Rotterdam" "a cat" ⟨some ⟨false⟩⟩).1 (by decide)).2.2 none,
   ((auto_approve_skips_confirmation 1 "Rotterdam" "a cat" ⟨none⟩).2 (by decide)).2.1,
   ((auto_approve_skips_confirmation 1 "Rotterdam" "a cat" ⟨none⟩).2 (by decide)).2.2 none⟩

/-- C8 counterexample: the claim says each lookup returns exactly the same
result as on the lower-cased key, for every input.  But the error dict
echoes the caller's original casing in `error_message`, so for the unknown
key "BITCOIN" the two results differ. -/
theorem lookup_case_sensitivity_counterexample :
    pyLower "BITCOIN" = "bitcoin" ∧
    get_fee_for_payment_method "BITCOIN" ≠ get_fee_for_payment_method "bitcoin" := by
  refine ⟨rfl, fun h => ?_⟩
  have h2 := congrArg FeeResult.error_message h
  have e1 : fee_database.lookup (pyLower "BITCOIN") = none := rfl
  have e2 : fee_database.lookup (pyLower "bitcoin") = none := rfl
  unfold get_fee_for_payment_method at h2
  rw [e1, e2] at h2
  simp at h2

/-- C8 (amended): both lookups are pure functions and their lookup outcome
is case-insensitive — the `status` and the `fee_percentage`/`rate` field of
each result coincide with those for the lower-cased key (so successful
results are identical); only the `error_message` of a failed lookup echoes
the caller's original casing. -/
theorem lookup_outcome_case_insensitive (m b t : String) :
    (get_fee_for_payment_method m).status =
      (get_fee_for_payment_method (pyLower m)).status ∧
    (get_fee_for_payment_method m).fee_percentage =
      (get_fee_for_payment_method (pyLower m)).fee_percentage ∧
    (get_exchange_rate b t).status =
      (get_exchange_rate (pyLower b) (pyLower t)).status ∧
    (get_exchange_rate b t).rate =
      (get_exchange_rate (pyLower b) (pyLower t)).rate := by
  unfold get_fee_for_payment_method get_exchange_rate
  rw [pyLower_idem, pyLower_idem, pyLower_idem]
  cases fee_database.lookup (pyLower m) <;>
    cases ((rate_database.lookup (pyLower b)).getD []).lookup (pyLower t) <;>
    simp

/-- C9: the fee lookup on the mixed-case key "Platinum Credit Card"
succeeds with `fee_percentage = 0.02`, and the lookup for "bitcoin"
returns the not-found error dict. -/
theorem scenario_d_fee_lookup :
    get_fee_for_payment_method "Platinum Credit Card" =
      ⟨"success", some 0.02, none⟩ ∧
    (get_fee_for_payment_method "bitcoin").status = "error" ∧
    (get_fee_for_payment_method "bitcoin").fee_percentage = none ∧
    (get_fee_for_payment_method "bitcoin").error_message =
      some "Payment method \x27bitcoin\x27 not found" :=
  ⟨rfl, rfl, rfl, rfl⟩

/-- C10: the exchange-rate table supports only "usd" (case-insensitively)
as a base: every other base yields an error for every target; with base
"usd" the lookup succeeds exactly for targets "eur", "jpy" and "inr"
(case-insensitively) with rates 0.93, 157.5 and 83.58, and errors on every
other target. -/
theorem exchange_rate_table_characterization (base target : String) :
    (pyLower base ≠ "usd" →
      (get_exchange_rate base target).status = "error" ∧
      (get_exchange_rate base target).rate = none) ∧
    (pyLower base = "usd" →
      (pyLower target = "eur" →
        get_exchange_rate base target = ⟨"success", some 0.93, none⟩) ∧
      (pyLower target = "jpy" →
        get_exchange_rate base target = ⟨"success", some 157.5, none⟩) ∧
      (pyLower target = "inr" →
        get_exchange_rate base target = ⟨"success", some 83.58, none⟩) ∧
      (pyLower target ≠ "eur" → pyLower target ≠ "jpy" → pyLower target ≠ "inr" →
        (get_exchange_rate base target).status = "error" ∧
        (get_exchange_rate base target).rate = none)) := by
  constructor
  · intro hb
    have hb2 : (pyLower base == "usd") = false := by simp [hb]
    simp [get_exchange_rate, rate_database, List.lookup, hb2]
  · intro hb
    have hb2 : (pyLower base == "usd") = true := by simp [hb]
    refine ⟨fun ht => ?_, fun ht => ?_, fun ht => ?_, fun h1 h2 h3 => ?_⟩
    · have e1 : (pyLower target == "eur") = true := by rw [ht]; rfl
      simp [get_exchange_rate, rate_database, List.lookup, hb2, e1]
    · have e1 : (pyLower target == "eur") = false := by rw [ht]; rfl
      have e2 : (pyLower target == "jpy") = true := by rw [ht]; rfl
      simp [get_exchange_rate, rate_database, List.lookup, hb2, e1, e2]
    · have e1 : (pyLower target == "eur") = false := by rw [ht]; rfl
      have e2 : (pyLower target == "jpy") = false := by rw [ht]; rfl
      have e3 : (pyLower target == "inr") = true := by rw [ht]; rfl
      simp [get_exchange_rate, rate_database, List.lookup, hb2, e1, e2, e3]
    · have e1 : (pyLower target == "eur") = false := by simp [h1]
      have e2 : (pyLower target == "jpy") = false := by simp [h2]
      have e3 : (pyLower target == "inr") = false := by simp [h3]
      simp [get_exchange_rate, rate_database, List.lookup, hb2, e1, e2, e3]

theorem exchange_rate_table_characterization_witness :
    get_exchange_rate "USD" "EUR" = ⟨"success", some 0.93, none⟩ ∧
    get_exchange_rate "Usd" "jPy" = ⟨"success", some 157.5, none⟩ ∧
    get_exchange_rate "usd" "INR" = ⟨"success", some 83.58, none⟩ ∧
    (get_exchange_rate "usd" "gbp").status = "error" ∧
    (get_exchange_rate "eur" "usd").status = "error" :=
  ⟨((exchange_rate_table_characterization "USD" "EUR").2 rfl).1 rfl,
   ((exchange_rate_table_characterization "Usd" "jPy").2 rfl).2.1 rfl,
   ((exchange_rate_table_characterization "usd" "INR").2 rfl).2.2.1 rfl,
   (((exchange_rate_table_characterization "usd" "gbp").2 rfl).2.2.2
      (by decide) (by decide) (by decide)).1,
   ((exchange_rate_table_characterization "eur" "usd").1 (by decide)).1⟩
